import Mathlib

/-!
Shallow embedding of `src/apple_health_dashboard/app.py`.

The program ingests a zip archive holding an Apple Health XML export,
extracts records of four fixed metric types, filters them by a selected
time range and renders a plot payload and a day-pivoted table.

Modelling conventions:
* pandas timestamps are modelled as `Int` seconds; `timedelta(days = n)`
  becomes `n * 86400`; `replace(hour := 0, ...)` (truncation to midnight)
  becomes flooring to a multiple of 86400, and the derived `date` column
  (`strftime` of the calendar day) becomes the floor-divided day index;
* a DataFrame of records is a `List HealthRecord` in row order;
* numeric record values pass through the pipeline untouched, so they are
  carried as `Int`;
* raised exceptions (bad archive, unparsable XML, uncoercible timestamp,
  duplicate pivot key, the fall-through `assert`) are `Except.error` or
  `Option.none` results;
* the flask global `g.df` is a `GState` threaded explicitly through
  `update_output`.
-/

/-- Seconds in one calendar day. -/
def SECONDS_PER_DAY : Int := 86400

/-- Calendar day index of a timestamp: floor division by the day length,
matching the calendar-day truncation of `strftime` with a day format. -/
def dayOf (t : Int) : Int := Int.fdiv t SECONDS_PER_DAY

/-- Truncation of a timestamp down to midnight of its day, the effect of
`start_date.replace(hour=0, minute=0, second=0, microsecond=0, nanosecond=0)`. -/
def midnightOf (t : Int) : Int := SECONDS_PER_DAY * dayOf t

/-- The `RecordType` enum of the source: the four health metrics extracted. -/
inductive RecordType
  | SBP
  | DBP
  | HR
  | BM
  deriving DecidableEq, Repr

/-- The string value of each `RecordType` member, as in the source enum. -/
def RecordType.value : RecordType → String
  | RecordType.SBP => "HKQuantityTypeIdentifierBloodPressureSystolic"
  | RecordType.DBP => "HKQuantityTypeIdentifierBloodPressureDiastolic"
  | RecordType.HR => "HKQuantityTypeIdentifierHeartRate"
  | RecordType.BM => "HKQuantityTypeIdentifierBodyMass"

/-- The `TimeRange` named tuple of the source. -/
structure TimeRange where
  label : String
  value : Int
  delta : Option Int := none
  deriving DecidableEq, Repr

/-- The fixed `TIME_RANGE_TABLE` of the source, deltas in seconds. -/
def TIME_RANGE_TABLE : List TimeRange :=
  [ { label := "Entire duration", value := -1 },
    { label := "One year", value := 1, delta := some (365 * SECONDS_PER_DAY) },
    { label := "Six months", value := 2, delta := some (183 * SECONDS_PER_DAY) },
    { label := "One month", value := 3, delta := some (31 * SECONDS_PER_DAY) } ]

/-- One row of the records DataFrame: the three parsed timestamp columns,
the `type` attribute string, the numeric `value`, and the derived `date`
column (calendar-day index of `startDate`). -/
structure HealthRecord where
  type : String
  creationDate : Int
  startDate : Int
  endDate : Int
  value : Int
  date : Int
  deriving DecidableEq, Repr

/-- The for-loop over `TIME_RANGE_TABLE` with `break` on a matching value;
`none` models falling through to `assert False`. -/
def resolveTimeRange (key : Int) : Option TimeRange :=
  List.find? (fun tr => key == tr.value) TIME_RANGE_TABLE

/-- The minimum of the `startDate` column, `none` on an empty frame
(pandas would give `NaT`). -/
def minStart : List HealthRecord → Option Int
  | [] => none
  | r :: rest =>
    match minStart rest with
    | none => some r.startDate
    | some m => some (min r.startDate m)

/-- The maximum of the `startDate` column, `none` on an empty frame. -/
def maxStart : List HealthRecord → Option Int
  | [] => none
  | r :: rest =>
    match maxStart rest with
    | none => some r.startDate
    | some m => some (max r.startDate m)

/-- The filter boundary of `update_output`: the minimum `startDate` when the
option has no delta, otherwise the maximum `startDate` minus the delta,
truncated down to midnight. `none` models the `NaT` produced on an empty
frame. -/
def startBoundary (rs : List HealthRecord) (tr : TimeRange) : Option Int :=
  match tr.delta with
  | none => minStart rs
  | some d =>
    match maxStart rs with
    | none => none
    | some m => some (midnightOf (m - d))

/-- The row filter `g.df[g.df[startDate] >= start_date]`; a `NaT` boundary
compares false against every timestamp, so it keeps nothing. -/
def filterByRange (rs : List HealthRecord) (tr : TimeRange) : List HealthRecord :=
  match startBoundary rs tr with
  | none => []
  | some b => rs.filter (fun r => decide (b ≤ r.startDate))

theorem minStart_cons_isSome (a : HealthRecord) (l : List HealthRecord) :
    (minStart (a :: l)).isSome := by
  cases h : minStart l <;> simp [minStart, h]

theorem minStart_le (rs : List HealthRecord) (m : Int) (hm : minStart rs = some m) :
    ∀ r ∈ rs, m ≤ r.startDate := by
  induction rs generalizing m with
  | nil => simp [minStart] at hm
  | cons a l ih =>
    intro r hr
    cases hl : minStart l with
    | none =>
      have hm2 : a.startDate = m := by
        simpa [minStart, hl] using hm
      have hlnil : l = [] := by
        cases l with
        | nil => rfl
        | cons b t =>
          exfalso
          have := minStart_cons_isSome b t
          rw [hl] at this
          simp at this
      subst hlnil
      rcases List.mem_cons.mp hr with h | h
      · subst h; omega
      · simp at h
    | some m0 =>
      have hm2 : min a.startDate m0 = m := by
        simpa [minStart, hl] using hm
      rcases List.mem_cons.mp hr with h | h
      · subst h; rw [← hm2]; exact min_le_left _ _
      · exact le_trans (hm2 ▸ min_le_right a.startDate m0) (ih m0 hl r h)

/-- C1: for every record set and every time-range option with a lookback
duration, the filter keeps exactly the records whose `startDate` is at least
the maximum `startDate` minus the duration, truncated down to midnight; and
the One month option carries a duration of 31 days. -/
theorem duration_filter_keeps_recent (rs : List HealthRecord) (tr : TimeRange)
    (d m : Int) (hd : tr.delta = some d) (hm : maxStart rs = some m) :
    filterByRange rs tr
        = rs.filter (fun r => decide (midnightOf (m - d) ≤ r.startDate))
      ∧ resolveTimeRange 3
        = some { label := "One month", value := 3, delta := some (31 * SECONDS_PER_DAY) } := by
  constructor
  · simp [filterByRange, startBoundary, hd, hm]
  · rfl

/-- Witness for C1 at a concrete one-record set and the One month option. -/
theorem duration_filter_keeps_recent_witness :
    filterByRange [{ type := "t", creationDate := 0, startDate := 10000000,
                     endDate := 0, value := 5, date := 115 }]
        { label := "One month", value := 3, delta := some (31 * SECONDS_PER_DAY) }
      = List.filter
          (fun r => decide (midnightOf (10000000 - 31 * SECONDS_PER_DAY) ≤ r.startDate))
          [{ type := "t", creationDate := 0, startDate := 10000000,
             endDate := 0, value := 5, date := 115 }]
      ∧ resolveTimeRange 3
        = some { label := "One month", value := 3, delta := some (31 * SECONDS_PER_DAY) } :=
  duration_filter_keeps_recent _ _ (31 * SECONDS_PER_DAY) 10000000 rfl rfl

/-- C4: filtering a non-empty record set with the Entire duration option (the
table entry with no lookback duration, resolved from key -1) returns exactly
the input set, since its boundary is the minimum `startDate` of the set. -/
theorem entire_duration_filter_is_identity (rs : List HealthRecord) (tr : TimeRange)
    (hne : rs ≠ []) (hres : resolveTimeRange (-1) = some tr) :
    filterByRange rs tr = rs := by
  have htr : tr = { label := "Entire duration", value := -1 } := by
    have : resolveTimeRange (-1)
        = some { label := "Entire duration", value := -1, delta := none } := rfl
    rw [this] at hres
    exact (Option.some.injEq _ _ ▸ hres).symm
  subst htr
  cases hmin : minStart rs with
  | none =>
    cases rs with
    | nil => exact absurd rfl hne
    | cons a l =>
      simp only [minStart] at hmin
      cases h : minStart l <;> simp [h] at hmin
  | some m =>
    have hb : startBoundary rs { label := "Entire duration", value := -1 } = some m := by
      simp [startBoundary, hmin]
    simp only [filterByRange, hb]
    exact List.filter_eq_self.mpr (fun r hr => by
      simpa using minStart_le rs m hmin r hr)

/-- Witness for C4 at a concrete two-record set. -/
theorem entire_duration_filter_is_identity_witness :
    filterByRange
        [{ type := "a", creationDate := 0, startDate := 100, endDate := 0,
           value := 1, date := 0 },
         { type := "b", creationDate := 0, startDate := 200000, endDate := 0,
           value := 2, date := 2 }]
        { label := "Entire duration", value := -1 }
      = [{ type := "a", creationDate := 0, startDate := 100, endDate := 0,
           value := 1, date := 0 },
         { type := "b", creationDate := 0, startDate := 200000, endDate := 0,
           value := 2, date := 2 }] :=
  entire_duration_filter_is_identity _ _ (by decide) rfl

/-- C7: resolving a selector key against the fixed table succeeds exactly for
the keys in the value set of `TIME_RANGE_TABLE`, which is precisely
-1, 1, 2, 3; every other key falls through to the assertion (`none`). -/
theorem resolve_time_range_total_on_table (k : Int) :
    ((resolveTimeRange k).isSome ↔ (k = -1 ∨ k = 1 ∨ k = 2 ∨ k = 3))
      ∧ TIME_RANGE_TABLE.map TimeRange.value = [-1, 1, 2, 3] := by
  constructor
  · rw [resolveTimeRange, List.find?_isSome]
    constructor
    · rintro ⟨tr, htr, hk⟩
      have hk2 : k = tr.value := by simpa using hk
      simp only [TIME_RANGE_TABLE, List.mem_cons, List.not_mem_nil, or_false] at htr
      rcases htr with h | h | h | h <;> subst h <;> simp [hk2]
    · intro hk
      rcases hk with h | h | h | h <;> subst h
      · exact ⟨{ label := "Entire duration", value := -1 }, by simp [TIME_RANGE_TABLE], by simp⟩
      · exact ⟨{ label := "One year", value := 1, delta := some (365 * SECONDS_PER_DAY) },
          by simp [TIME_RANGE_TABLE], by simp⟩
      · exact ⟨{ label := "Six months", value := 2, delta := some (183 * SECONDS_PER_DAY) },
          by simp [TIME_RANGE_TABLE], by simp⟩
      · exact ⟨{ label := "One month", value := 3, delta := some (31 * SECONDS_PER_DAY) },
          by simp [TIME_RANGE_TABLE], by simp⟩
  · rfl

/-- One cell of the rendered table: the Date column holds a day, a metric
column holds a value or is empty (`NaN` after the pivot / reindex). -/
inductive TableCell
  | day (d : Int)
  | num (v : Int)
  | empty
  deriving DecidableEq, Repr

/-- The fixed column list forced by `reindex` in `build_table`. -/
def TABLE_COLUMNS : List String := ["Date", "SBP", "DBP", "HR", "BM"]

/-- The table payload: the column headers and the rows. -/
abbrev TablePayload := List String × List (List TableCell)

/-- The (index, column) key pair of the pivot: the `date` and `type` columns. -/
def pivotKeys (rs : List HealthRecord) : List (Int × String) :=
  rs.map (fun r => (r.date, r.type))

/-- Insertion of a day into a strictly ascending day list, keeping it
strictly ascending (duplicates collapse, as in a pivot index). -/
def insertDay (d : Int) : List Int → List Int
  | [] => [d]
  | e :: es =>
    if d < e then d :: e :: es
    else if d = e then e :: es
    else e :: insertDay d es

/-- The sorted deduplicated day index the pivot builds from a day column. -/
def sortedDays : List Int → List Int
  | [] => []
  | d :: ds => insertDay d (sortedDays ds)

/-- The distinct days of a record set in ascending order: the row index of
the pivoted table. -/
def daysOf (rs : List HealthRecord) : List Int :=
  sortedDays (rs.map HealthRecord.date)

/-- The pivot cell for one day and one metric tag: the value of the unique
matching record, or empty when no record matches. -/
def cellFor (rs : List HealthRecord) (d : Int) (tag : String) : TableCell :=
  match List.find? (fun r => r.date == d && r.type == tag) rs with
  | some r => TableCell.num r.value
  | none => TableCell.empty

/-- One table row: the day followed by the four metric cells in the fixed
column order SBP, DBP, HR, BM. -/
def rowFor (rs : List HealthRecord) (d : Int) : List TableCell :=
  [TableCell.day d,
   cellFor rs d RecordType.SBP.value,
   cellFor rs d RecordType.DBP.value,
   cellFor rs d RecordType.HR.value,
   cellFor rs d RecordType.BM.value]

/-- The `build_table` function: `df.pivot(index=date, columns=type,
values=value)` followed by renaming and `reindex` to the fixed columns.
Pandas raises a duplicate-key `ValueError` when two rows share a
(date, type) pair; that failure is the `none` result. -/
def build_table (rs : List HealthRecord) : Option TablePayload :=
  if (pivotKeys rs).Nodup then
    some (TABLE_COLUMNS, (daysOf rs).map (rowFor rs))
  else none

/-- Execution of `build_table` against the stored frame: the pivot allocates
a fresh frame and every in-place operation of the source (the `rename` with
`inplace` and the `reindex` rebinding) acts on that fresh frame only, so the
input frame comes back unchanged next to the payload. -/
def build_table_run (df : List HealthRecord) : Option TablePayload × List HealthRecord :=
  (build_table df, df)

theorem mem_insertDay (x d : Int) (l : List Int) :
    x ∈ insertDay d l ↔ x = d ∨ x ∈ l := by
  induction l with
  | nil => simp [insertDay]
  | cons e es ih =>
    by_cases h1 : d < e
    · simp [insertDay, h1]
    · by_cases h2 : d = e
      · subst h2
        simp [insertDay, h1]
      · simp only [insertDay, if_neg h1, if_neg h2, List.mem_cons, ih]
        tauto

theorem pairwise_insertDay (d : Int) (l : List Int)
    (hl : List.Pairwise (fun a b => a < b) l) :
    List.Pairwise (fun a b => a < b) (insertDay d l) := by
  induction l with
  | nil => simp [insertDay]
  | cons e es ih =>
    rcases List.pairwise_cons.mp hl with ⟨he, hes⟩
    by_cases h1 : d < e
    · simp only [insertDay, if_pos h1]
      refine List.pairwise_cons.mpr ⟨?_, hl⟩
      intro x hx
      rcases List.mem_cons.mp hx with h | h
      · omega
      · exact lt_trans h1 (he x h)
    · by_cases h2 : d = e
      · simpa [insertDay, if_neg h1, h2] using hl
      · simp only [insertDay, if_neg h1, if_neg h2]
        refine List.pairwise_cons.mpr ⟨?_, ih hes⟩
        intro x hx
        rcases (mem_insertDay x d es).mp hx with h | h
        · omega
        · exact he x h

theorem pairwise_sortedDays (l : List Int) :
    List.Pairwise (fun a b => a < b) (sortedDays l) := by
  induction l with
  | nil => exact List.Pairwise.nil
  | cons d ds ih => exact pairwise_insertDay d (sortedDays ds) ih

theorem mem_sortedDays (x : Int) (l : List Int) :
    x ∈ sortedDays l ↔ x ∈ l := by
  induction l with
  | nil => simp [sortedDays]
  | cons d ds ih =>
    simp [sortedDays, mem_insertDay, ih]

/-- C2: a record set holding two records with the same (day, type) pair makes
`build_table` fail with the duplicate-key error (`none`); the colliding
records are never dropped or averaged into a table. -/
theorem duplicate_pivot_key_fails (l1 l2 l3 : List HealthRecord)
    (r1 r2 : HealthRecord) (rs : List HealthRecord)
    (hrs : rs = l1 ++ r1 :: l2 ++ r2 :: l3)
    (hkey : r1.date = r2.date ∧ r1.type = r2.type) :
    build_table rs = none := by
  have hkeq : (r1.date, r1.type) = (r2.date, r2.type) := by
    rw [hkey.1, hkey.2]
  have hsub12 : [r1, r2].Sublist rs := by
    rw [hrs]
    have h3 : [r2].Sublist (l2 ++ r2 :: l3) :=
      (List.Sublist.cons₂ r2 (List.nil_sublist l3)).trans
        (List.sublist_append_right l2 (r2 :: l3))
    have h4 : [r1, r2].Sublist (r1 :: (l2 ++ r2 :: l3)) := List.Sublist.cons₂ r1 h3
    have h5 := h4.trans (List.sublist_append_right l1 (r1 :: (l2 ++ r2 :: l3)))
    simp only [List.cons_append, List.append_assoc] at h5 ⊢
    exact h5
  have hsub : [(r1.date, r1.type), (r2.date, r2.type)].Sublist (pivotKeys rs) := by
    simpa [pivotKeys] using hsub12.map (fun r => (r.date, r.type))
  have hnd : ¬ (pivotKeys rs).Nodup := by
    intro hnodup
    have hpair := hnodup.sublist hsub
    rw [hkeq] at hpair
    simp at hpair
  simp only [build_table, if_neg hnd]

/-- Witness for C2: two body-mass records on the same day. -/
theorem duplicate_pivot_key_fails_witness :
    build_table
      [{ type := "HKQuantityTypeIdentifierBodyMass", creationDate := 0,
         startDate := 100, endDate := 0, value := 70, date := 0 },
       { type := "HKQuantityTypeIdentifierBodyMass", creationDate := 0,
         startDate := 200, endDate := 0, value := 71, date := 0 }] = none :=
  duplicate_pivot_key_fails [] [] []
    { type := "HKQuantityTypeIdentifierBodyMass", creationDate := 0,
      startDate := 100, endDate := 0, value := 70, date := 0 }
    { type := "HKQuantityTypeIdentifierBodyMass", creationDate := 0,
      startDate := 200, endDate := 0, value := 71, date := 0 }
    _ rfl ⟨rfl, rfl⟩

/-- C9: running the table build twice against the same stored filtered frame
yields the same payload both times, the stored frame coming back unchanged
from the first run; under unique (day, type) keys both runs succeed with the
same rows. -/
theorem table_pivot_idempotent (rs : List HealthRecord)
    (h : (pivotKeys rs).Nodup) :
    (build_table_run ((build_table_run rs).2)).1 = (build_table_run rs).1
      ∧ (build_table_run rs).2 = rs
      ∧ ∃ rows, (build_table_run rs).1 = some (TABLE_COLUMNS, rows) := by
  refine ⟨rfl, rfl, (daysOf rs).map (rowFor rs), ?_⟩
  simp [build_table_run, build_table, h]

/-- Witness for C9 at a concrete one-record set. -/
theorem table_pivot_idempotent_witness :
    (build_table_run ((build_table_run
        [{ type := "HKQuantityTypeIdentifierHeartRate", creationDate := 0,
           startDate := 100, endDate := 0, value := 60, date := 0 }]).2)).1
      = (build_table_run
        [{ type := "HKQuantityTypeIdentifierHeartRate", creationDate := 0,
           startDate := 100, endDate := 0, value := 60, date := 0 }]).1
      ∧ (build_table_run
        [{ type := "HKQuantityTypeIdentifierHeartRate", creationDate := 0,
           startDate := 100, endDate := 0, value := 60, date := 0 }]).2
        = [{ type := "HKQuantityTypeIdentifierHeartRate", creationDate := 0,
             startDate := 100, endDate := 0, value := 60, date := 0 }]
      ∧ ∃ rows, (build_table_run
        [{ type := "HKQuantityTypeIdentifierHeartRate", creationDate := 0,
           startDate := 100, endDate := 0, value := 60, date := 0 }]).1
          = some (TABLE_COLUMNS, rows) :=
  table_pivot_idempotent _ (by decide)

/-- C10: under unique (day, type) keys the table payload has exactly the
columns Date, SBP, DBP, HR, BM in that order; its rows are one per distinct
calendar day of the filtered set, in strictly ascending date order with no
day repeated or missing; each row is the day followed by the four metric
cells in the fixed order, a cell being empty exactly when the set holds no
record of that metric on that day, so a metric with no records anywhere
still contributes an all-empty column. -/
theorem table_payload_shape (rs : List HealthRecord)
    (h : (pivotKeys rs).Nodup) :
    build_table rs
        = some (["Date", "SBP", "DBP", "HR", "BM"], (daysOf rs).map (rowFor rs))
      ∧ List.Pairwise (fun a b => a < b) (daysOf rs)
      ∧ (daysOf rs).Nodup
      ∧ (∀ d, d ∈ daysOf rs ↔ ∃ r ∈ rs, r.date = d)
      ∧ (∀ d, rowFor rs d =
          [TableCell.day d,
           cellFor rs d RecordType.SBP.value,
           cellFor rs d RecordType.DBP.value,
           cellFor rs d RecordType.HR.value,
           cellFor rs d RecordType.BM.value])
      ∧ (∀ d tag, cellFor rs d tag = TableCell.empty ↔
          ∀ r ∈ rs, ¬(r.date = d ∧ r.type = tag))
      ∧ (∀ d tag v, cellFor rs d tag = TableCell.num v →
          ∃ r ∈ rs, r.date = d ∧ r.type = tag ∧ r.value = v) := by
  refine ⟨by simp [build_table, h, TABLE_COLUMNS],
          pairwise_sortedDays (rs.map HealthRecord.date),
          (pairwise_sortedDays (rs.map HealthRecord.date)).imp
            (fun hab => ne_of_lt hab),
          ?_, fun d => rfl, ?_, ?_⟩
  · intro d
    simp [daysOf, mem_sortedDays, List.mem_map]
  · intro d tag
    constructor
    · intro hc r hr hcontra
      cases hf : List.find? (fun r => r.date == d && r.type == tag) rs with
      | some r0 => simp [cellFor, hf] at hc
      | none =>
        have hnone := List.find?_eq_none.mp hf r hr
        simp [hcontra.1, hcontra.2] at hnone
    · intro hall
      cases hf : List.find? (fun r => r.date == d && r.type == tag) rs with
      | some r0 =>
        exfalso
        have h1 := List.find?_some hf
        have h2 := List.mem_of_find?_eq_some hf
        simp only [Bool.and_eq_true, beq_iff_eq] at h1
        exact hall r0 h2 h1
      | none => simp [cellFor, hf]
  · intro d tag v hc
    cases hf : List.find? (fun r => r.date == d && r.type == tag) rs with
    | some r0 =>
      have h1 := List.find?_some hf
      have h2 := List.mem_of_find?_eq_some hf
      simp only [Bool.and_eq_true, beq_iff_eq] at h1
      have hv : TableCell.num r0.value = TableCell.num v := by
        rw [← hc]; simp [cellFor, hf]
      exact ⟨r0, h2, h1.1, h1.2, (TableCell.num.injEq _ _ ▸ hv)⟩
    | none => simp [cellFor, hf] at hc

/-- Witness for C10 at a concrete two-day set with one missing metric day. -/
theorem table_payload_shape_witness :
    build_table
        [{ type := "HKQuantityTypeIdentifierBodyMass", creationDate := 0,
           startDate := 100, endDate := 0, value := 70, date := 0 },
         { type := "HKQuantityTypeIdentifierHeartRate", creationDate := 0,
           startDate := 90000, endDate := 0, value := 61, date := 1 }]
      = some (["Date", "SBP", "DBP", "HR", "BM"],
          (daysOf
            [{ type := "HKQuantityTypeIdentifierBodyMass", creationDate := 0,
               startDate := 100, endDate := 0, value := 70, date := 0 },
             { type := "HKQuantityTypeIdentifierHeartRate", creationDate := 0,
               startDate := 90000, endDate := 0, value := 61, date := 1 }]).map
            (rowFor
              [{ type := "HKQuantityTypeIdentifierBodyMass", creationDate := 0,
                 startDate := 100, endDate := 0, value := 70, date := 0 },
               { type := "HKQuantityTypeIdentifierHeartRate", creationDate := 0,
                 startDate := 90000, endDate := 0, value := 61, date := 1 }])) :=
  (table_payload_shape _ (by decide)).1

/-- One `Record` element of the export XML: its `type` attribute, its three
timestamp attributes as parse results (`none` when the string cannot be
coerced to a timestamp), and its numeric value. -/
structure XmlElement where
  type : String
  creationDate : Option Int
  startDate : Option Int
  endDate : Option Int
  value : Int
  deriving DecidableEq, Repr

/-- The file found at the internal path: parseable to a list of `Record`
elements, or structurally malformed markup. -/
inductive XmlFile
  | malformed
  | doc (elems : List XmlElement)
  deriving DecidableEq, Repr

/-- The decoded upload: a zip archive mapping internal paths to files, or
bytes `zipfile` rejects. -/
inductive UploadArchive
  | malformed
  | files (entries : List (String × XmlFile))
  deriving DecidableEq, Repr

/-- The exceptions `parse_contents` can raise: a bad zip, unparsable XML, an
XPath selecting no nodes, an uncoercible timestamp attribute. -/
inductive IngestError
  | badArchive
  | badXml
  | emptySelection
  | badTimestamp
  deriving DecidableEq, Repr

/-- The fixed internal path of the export document. -/
def EXPORT_PATH : String := "apple_health_export/export.xml"

/-- The four tag strings of the XPath predicate on the `type` attribute. -/
def TAG_STRINGS : List String :=
  [RecordType.SBP.value, RecordType.DBP.value,
   RecordType.HR.value, RecordType.BM.value]

/-- The XPath attribute predicate: the `type` attribute equals one of the
four fixed tags. -/
def matchesTags (e : XmlElement) : Bool :=
  TAG_STRINGS.contains e.type

/-- Coercion of one selected element into a DataFrame row: all three
timestamp attributes must parse, and the derived `date` column is the
calendar day of `startDate`. -/
def elemToRecord (e : XmlElement) : Option HealthRecord :=
  match e.creationDate, e.startDate, e.endDate with
  | some c, some s, some en =>
    some { type := e.type, creationDate := c, startDate := s, endDate := en,
           value := e.value, date := dayOf s }
  | _, _, _ => none

/-- Column-wise timestamp coercion over all selected elements: any failure
fails the whole ingestion, no per-record skip. -/
def coerceAll : List XmlElement → Option (List HealthRecord)
  | [] => some []
  | e :: es =>
    match elemToRecord e, coerceAll es with
    | some r, some rest => some (r :: rest)
    | _, _ => none

/-- The `parse_contents` function: `none` contents give no result; a bad
archive raises; a present archive without the fixed internal path gives no
result; otherwise the document is parsed, the four-tag XPath filter applied
(`read_xml` raises when it selects nothing), timestamps coerced and the
`date` column derived. -/
def parse_contents (contents : Option UploadArchive) :
    Except IngestError (Option (List HealthRecord)) :=
  match contents with
  | none => Except.ok none
  | some UploadArchive.malformed => Except.error IngestError.badArchive
  | some (UploadArchive.files entries) =>
    match entries.lookup EXPORT_PATH with
    | none => Except.ok none
    | some XmlFile.malformed => Except.error IngestError.badXml
    | some (XmlFile.doc elems) =>
      match (elems.filter matchesTags).isEmpty, coerceAll (elems.filter matchesTags) with
      | true, _ => Except.error IngestError.emptySelection
      | false, none => Except.error IngestError.badTimestamp
      | false, some rs => Except.ok (some rs)

theorem coerceAll_mem (es : List XmlElement) (rs : List HealthRecord)
    (hc : coerceAll es = some rs) :
    ∀ r ∈ rs, ∃ e ∈ es, elemToRecord e = some r := by
  induction es generalizing rs with
  | nil =>
    intro r hr
    simp only [coerceAll] at hc
    cases hc
    simp at hr
  | cons e es ih =>
    intro r hr
    cases he : elemToRecord e with
    | none => simp [coerceAll, he] at hc
    | some r0 =>
      cases hes : coerceAll es with
      | none => simp [coerceAll, he, hes] at hc
      | some rest =>
        have hrs : r0 :: rest = rs := by simpa [coerceAll, he, hes] using hc
        subst hrs
        rcases List.mem_cons.mp hr with h | h
        · exact ⟨e, List.mem_cons_self e es, h ▸ he⟩
        · rcases ih rest hes r h with ⟨e1, he1, he2⟩
          exact ⟨e1, List.mem_cons_of_mem e he1, he2⟩

/-- C3: whenever extraction succeeds with a record set, every record has a
`type` among the four fixed tags and a derived `date` equal to the
calendar-day truncation of its `startDate`. -/
theorem extraction_types_and_dates (contents : Option UploadArchive)
    (rs : List HealthRecord)
    (h : parse_contents contents = Except.ok (some rs)) :
    ∀ r ∈ rs, r.type ∈ TAG_STRINGS ∧ r.date = dayOf r.startDate := by
  intro r hr
  match contents with
  | none => simp [parse_contents] at h
  | some UploadArchive.malformed => simp [parse_contents] at h
  | some (UploadArchive.files entries) =>
    match hl : entries.lookup EXPORT_PATH with
    | none => simp [parse_contents, hl] at h
    | some XmlFile.malformed => simp [parse_contents, hl] at h
    | some (XmlFile.doc elems) =>
      match hm : (elems.filter matchesTags).isEmpty,
            hc : coerceAll (elems.filter matchesTags) with
      | true, _ => simp [parse_contents, hl, hm] at h
      | false, none => simp [parse_contents, hl, hm, hc] at h
      | false, some rs0 =>
        have hrs : rs0 = rs := by
          simpa [parse_contents, hl, hm, hc] using h
        subst hrs
        rcases coerceAll_mem _ _ hc r hr with ⟨e, he, herec⟩
        have htag : matchesTags e = true := List.of_mem_filter he
        match h1 : e.creationDate, h2 : e.startDate, h3 : e.endDate with
        | some c, some s, some en =>
          have hrec : { type := e.type, creationDate := c, startDate := s,
                        endDate := en, value := e.value,
                        date := dayOf s : HealthRecord } = r := by
            simpa [elemToRecord, h1, h2, h3] using herec
          constructor
          · rw [← hrec]
            simpa [matchesTags, List.contains_iff_exists_mem_beq,
                   beq_iff_eq] using htag
          · rw [← hrec]
        | none, _, _ => simp [elemToRecord, h1] at herec
        | some _, none, _ => simp [elemToRecord, h1, h2] at herec
        | some _, some _, none => simp [elemToRecord, h1, h2, h3] at herec

/-- Witness for C3 at a concrete one-file archive with one heart-rate
element. -/
theorem extraction_types_and_dates_witness :
    ({ type := "HKQuantityTypeIdentifierHeartRate", creationDate := 50,
       startDate := 90100, endDate := 90200, value := 62,
       date := 1 : HealthRecord }).type ∈ TAG_STRINGS
      ∧ ({ type := "HKQuantityTypeIdentifierHeartRate", creationDate := 50,
           startDate := 90100, endDate := 90200, value := 62,
           date := 1 : HealthRecord }).date
        = dayOf ({ type := "HKQuantityTypeIdentifierHeartRate",
                   creationDate := 50, startDate := 90100, endDate := 90200,
                   value := 62, date := 1 : HealthRecord }).startDate :=
  extraction_types_and_dates
    (some (UploadArchive.files
      [(EXPORT_PATH,
        XmlFile.doc
          [{ type := "HKQuantityTypeIdentifierHeartRate", creationDate := some 50,
             startDate := some 90100, endDate := some 90200, value := 62 }])]))
    [{ type := "HKQuantityTypeIdentifierHeartRate", creationDate := 50,
       startDate := 90100, endDate := 90200, value := 62, date := 1 }]
    (by rfl)
    _ (by decide)

/-- C5: the extractor yields the benign `no result` sentinel, rather than an
error, exactly when no contents were supplied or when the archive opens but
holds no file at the fixed internal export path. -/
theorem parse_contents_none_iff (contents : Option UploadArchive) :
    parse_contents contents = Except.ok none ↔
      (contents = none ∨
        ∃ entries, contents = some (UploadArchive.files entries)
          ∧ entries.lookup EXPORT_PATH = none) := by
  constructor
  · intro h
    match contents with
    | none => exact Or.inl rfl
    | some UploadArchive.malformed => simp [parse_contents] at h
    | some (UploadArchive.files entries) =>
      match hl : entries.lookup EXPORT_PATH with
      | none => exact Or.inr ⟨entries, rfl, hl⟩
      | some XmlFile.malformed => simp [parse_contents, hl] at h
      | some (XmlFile.doc elems) =>
        match hm : (elems.filter matchesTags).isEmpty,
              hc : coerceAll (elems.filter matchesTags) with
        | true, _ => simp [parse_contents, hl, hm] at h
        | false, none => simp [parse_contents, hl, hm, hc] at h
        | false, some rs0 => simp [parse_contents, hl, hm, hc] at h
  · intro h
    rcases h with h | ⟨entries, hent, hnone⟩
    · subst h; rfl
    · subst hent
      simp [parse_contents, hnone]

/-- The plot payload of `build_graph`: the three series of
(startDate, value) points in frame order, the two fixed reference lines,
and the axis titles. -/
structure GraphPayload where
  bp : List (Int × Int)
  hr : List (Int × Int)
  bm : List (Int × Int)
  hlines : List Int
  xTitle : String
  bpTitle : String
  hrTitle : String
  bmTitle : String
  deriving DecidableEq, Repr

/-- One series of the plot: the (startDate, value) points of the records
matching a type predicate, in frame order. -/
def seriesFor (rs : List HealthRecord) (p : HealthRecord → Bool) :
    List (Int × Int) :=
  (rs.filter p).map (fun r => (r.startDate, r.value))

/-- The `build_graph` function: the combined blood-pressure box series, the
heart-rate series on the secondary axis, the body-mass series on its own
panel, the dashed reference lines at 120 and 80, and the axis titles. -/
def build_graph (rs : List HealthRecord) : GraphPayload :=
  { bp := seriesFor rs (fun r =>
      r.type == RecordType.SBP.value || r.type == RecordType.DBP.value),
    hr := seriesFor rs (fun r => r.type == RecordType.HR.value),
    bm := seriesFor rs (fun r => r.type == RecordType.BM.value),
    hlines := [120, 80],
    xTitle := "Date",
    bpTitle := "BP [mmHg]",
    hrTitle := "HR [bpm]",
    bmTitle := "BM [kg]" }

/-- The per-request flask global `g`: its stored dataset slot `g.df`. -/
structure GState where
  df : Option (List HealthRecord)
  deriving DecidableEq, Repr

/-- The tail of `update_output` once a dataset is at hand: resolve the
selector (`none` models the fall-through assertion), filter by the computed
boundary, and build both payloads (`none` when the pivot raises on a
duplicate key). The state rides along unchanged: nothing past this point
assigns `g.df`. -/
def runReshape (rs : List HealthRecord) (st : GState) (key : Int) :
    Option (Option (GraphPayload × TablePayload) × GState) :=
  match resolveTimeRange key with
  | none => none
  | some tr =>
    match build_table (filterByRange rs tr) with
    | none => none
    | some tbl => some (some (build_graph (filterByRange rs tr), tbl), st)

/-- The `update_output` callback: parse the upload (raised ingestion errors
propagate as `none`); a fresh parse is stored into `g.df`, otherwise the
session dataset is used, otherwise the disk cache is loaded into `g.df`,
otherwise the callback answers the `None, None` pair; with a dataset at
hand the time-range filter and both payload builders run. -/
def update_output (contents : Option UploadArchive)
    (cached : Option (List HealthRecord)) (key : Int) (st : GState) :
    Option (Option (GraphPayload × TablePayload) × GState) :=
  match parse_contents contents with
  | Except.error _ => none
  | Except.ok parsed =>
    match parsed, st.df, cached with
    | some df, _, _ => runReshape df { df := some df } key
    | none, some df, _ => runReshape df st key
    | none, none, some c => runReshape c { df := some c } key
    | none, none, none => some (none, st)

/-- C6: a request with no upload, no session dataset and no disk cache
answers the `None, None` pair — nothing to display, not an error; a request
whose stored record set is empty answers, under any resolvable selector, an
empty graph (all three series empty) and a table with the fixed columns and
no rows — again not an error. -/
theorem empty_or_absent_shows_nothing :
    (∀ k st, st.df = none → update_output none none k st = some (none, st))
      ∧ (∀ k tr, resolveTimeRange k = some tr →
          update_output none none k { df := some [] }
              = some (some (build_graph [], (TABLE_COLUMNS, [])), { df := some [] })
            ∧ build_graph [] =
              { bp := [], hr := [], bm := [], hlines := [120, 80],
                xTitle := "Date", bpTitle := "BP [mmHg]",
                hrTitle := "HR [bpm]", bmTitle := "BM [kg]" }) := by
  constructor
  · intro k st hdf
    simp [update_output, parse_contents, hdf]
  · intro k tr htr
    have hfilter : filterByRange [] tr = [] := by
      cases htd : tr.delta <;>
        simp [filterByRange, startBoundary, htd, minStart, maxStart]
    refine ⟨?_, rfl⟩
    simp only [update_output, parse_contents]
    simp only [runReshape, htr, hfilter]
    rfl

/-- Witness for C6 at the empty state and the empty stored set. -/
theorem empty_or_absent_shows_nothing_witness :
    update_output none none 3 { df := none } = some (none, { df := none })
      ∧ update_output none none (-1) { df := some [] }
          = some (some (build_graph [], (TABLE_COLUMNS, [])), { df := some [] }) :=
  ⟨empty_or_absent_shows_nothing.1 3 { df := none } rfl,
   (empty_or_absent_shows_nothing.2 (-1)
      { label := "Entire duration", value := -1 } (by decide)).1⟩

/-- C8: a time-range request against a stored record set never mutates it:
the state after `update_output` is exactly the state before, and a
displayed answer is built from a derived filtered view of the stored
records, so a later request refilters the original set. -/
theorem filter_never_mutates (rs : List HealthRecord)
    (cached : Option (List HealthRecord)) (k : Int) (st : GState)
    (out : Option (GraphPayload × TablePayload)) (st2 : GState)
    (hdf : st.df = some rs)
    (h : update_output none cached k st = some (out, st2)) :
    st2 = st
      ∧ ∀ gph tbl, out = some (gph, tbl) →
          ∃ tr, resolveTimeRange k = some tr
            ∧ gph = build_graph (filterByRange rs tr)
            ∧ build_table (filterByRange rs tr) = some tbl := by
  have h2 : runReshape rs st k = some (out, st2) := by
    simpa [update_output, parse_contents, hdf] using h
  match htr : resolveTimeRange k with
  | none => simp [runReshape, htr] at h2
  | some tr =>
    match hbt : build_table (filterByRange rs tr) with
    | none => simp [runReshape, htr, hbt] at h2
    | some tbl0 =>
      simp only [runReshape, htr, hbt] at h2
      have hps := Option.some.inj h2
      have hout : some (build_graph (filterByRange rs tr), tbl0) = out :=
        congrArg Prod.fst hps
      have hst : st = st2 := congrArg Prod.snd hps
      refine ⟨hst.symm, ?_⟩
      intro gph tbl hdisp
      rw [← hout] at hdisp
      have hpq := Option.some.inj hdisp
      refine ⟨tr, rfl, (congrArg Prod.fst hpq).symm, ?_⟩
      rw [hbt]
      exact congrArg (fun x => some x) (congrArg Prod.snd hpq)

/-- Witness for C8 at a concrete one-record stored set and the Entire
duration selector. -/
theorem filter_never_mutates_witness :
    ({ df := some [{ type := "HKQuantityTypeIdentifierHeartRate",
                     creationDate := 0, startDate := 0, endDate := 0,
                     value := 60, date := 0 }] } : GState)
        = { df := some [{ type := "HKQuantityTypeIdentifierHeartRate",
                          creationDate := 0, startDate := 0, endDate := 0,
                          value := 60, date := 0 }] }
      ∧ ∀ gph tbl,
          (some ({ bp := [], hr := [(0, 60)], bm := [], hlines := [120, 80],
                   xTitle := "Date", bpTitle := "BP [mmHg]",
                   hrTitle := "HR [bpm]", bmTitle := "BM [kg]" },
                 (TABLE_COLUMNS,
                  [[TableCell.day 0, TableCell.empty, TableCell.empty,
                    TableCell.num 60, TableCell.empty]]))
            : Option (GraphPayload × TablePayload)) = some (gph, tbl) →
          ∃ tr, resolveTimeRange (-1) = some tr
            ∧ gph = build_graph
                (filterByRange
                  [{ type := "HKQuantityTypeIdentifierHeartRate",
                     creationDate := 0, startDate := 0, endDate := 0,
                     value := 60, date := 0 }] tr)
            ∧ build_table
                (filterByRange
                  [{ type := "HKQuantityTypeIdentifierHeartRate",
                     creationDate := 0, startDate := 0, endDate := 0,
                     value := 60, date := 0 }] tr) = some tbl :=
  filter_never_mutates
    [{ type := "HKQuantityTypeIdentifierHeartRate", creationDate := 0,
       startDate := 0, endDate := 0, value := 60, date := 0 }]
    none (-1)
    { df := some [{ type := "HKQuantityTypeIdentifierHeartRate",
                    creationDate := 0, startDate := 0, endDate := 0,
                    value := 60, date := 0 }] }
    _ _ rfl (by rfl)
